import Mathlib

/-!
Verification of the tinygp documentation repository.

The repository consists of a GitHub Actions workflow (`.github/workflows/news.yml`)
and tutorial notebooks (fitting a mean function, an introduction, non-Gaussian
likelihoods, kernel transforms, and custom quasiseparable kernels).  Below we embed:

  * the workflow configuration and the GitHub event-filter semantics it relies on;
  * a rank-at-most-one tensor model of the `jax.numpy` operations used by the
    `mean_function` defined in the mean-function tutorial;
  * the `Multiband` and `Latent` quasiseparable kernel wrappers from the
    custom-quasiseparable tutorial, together with the banded observation-model
    construction from the same notebook;
  * a statement-level abstract syntax of every code cell of every notebook, used
    for the purely syntactic claims (which error-handling and concurrency
    constructs appear in the source).
-/

/-! ## The news workflow (`.github/workflows/news.yml`) -/

/-- One step of a GitHub Actions job, as used in `news.yml`: an optional display
name, an optional action reference (`uses:`), the `fetch-depth` and
`python-version` keys of the `with:` block when present, the list of shell lines
of the `run:` block, and the `continue-on-error` flag (absent from the YAML, so
it takes the GitHub default `false`). -/
structure WorkflowStep where
  stepName : Option String
  uses : Option String
  fetchDepth : Option Nat
  pythonVersion : Option String
  runLines : List String
  continueOnError : Bool
deriving DecidableEq

/-- Step 1 of the `news` job: `actions/checkout@v2` with `fetch-depth: 0`. -/
def checkoutStep : WorkflowStep :=
  { stepName := none
    uses := some "actions/checkout@v2"
    fetchDepth := some 0
    pythonVersion := none
    runLines := []
    continueOnError := false }

/-- Step 2 of the `news` job: `actions/setup-python@v2` with `python-version: "3.9"`. -/
def setupPythonStep : WorkflowStep :=
  { stepName := some "Setup Python"
    uses := some "actions/setup-python@v2"
    fetchDepth := none
    pythonVersion := some "3.9"
    runLines := []
    continueOnError := false }

/-- Step 3 of the `news` job: the `Install dependencies` run block (a pip
self-upgrade, a comment line, and the pinned towncrier install). -/
def installDependenciesStep : WorkflowStep :=
  { stepName := some "Install dependencies"
    uses := none
    fetchDepth := none
    pythonVersion := none
    runLines :=
      [ "python -m pip install -U pip"
      , "# FIXME: using github towncrier until next release"
      , "python -m pip install https://github.com/twisted/towncrier/archive/6b1527b6bf2cbb293ef411ac4f300bd50a5c98ae.zip" ]
    continueOnError := false }

/-- Step 4 of the `news` job: the `Check for news` run block. -/
def checkForNewsStep : WorkflowStep :=
  { stepName := some "Check for news"
    uses := none
    fetchDepth := none
    pythonVersion := none
    runLines := ["python -m towncrier check --compare-with origin/main"]
    continueOnError := false }

/-- The steps of the `news` job, in the order they appear in `news.yml`. -/
def newsJobSteps : List WorkflowStep :=
  [checkoutStep, setupPythonStep, installDependenciesStep, checkForNewsStep]

/-- The `paths-ignore` list of the `pull_request` trigger in `news.yml`. -/
def pathsIgnore : List String := [".pre-commit-config.yaml"]

/-- Events GitHub can deliver to a workflow; a pull-request event carries the
list of file paths changed by the pull request. -/
inductive GHEvent where
  | pullRequest (changedPaths : List String)
  | push (changedPaths : List String)
  | workflowDispatch
  | schedule
deriving DecidableEq

/-- A changed path matches the ignore list exactly when it is listed there
(the single pattern in `news.yml` contains no glob characters). -/
def matchesIgnore (p : String) : Bool := pathsIgnore.contains p

/-- Whether the news workflow runs for a given event.  The `on:` block of
`news.yml` names only `pull_request`, so no other event triggers it; per the
documented GitHub semantics of `paths-ignore`, a pull request is skipped
exactly when every changed path matches an ignore pattern. -/
def newsWorkflowTriggers : GHEvent → Bool
  | GHEvent.pullRequest ps => ! ps.all matchesIgnore
  | _ => false

/-- Modelled from the spec: the towncrier `check` command itself is external to
this repository (the workflow installs it from an archive URL); the spec states
that its exit status is non-zero exactly when no changelog (news) fragment is
found in the diff against the comparison branch. -/
def towncrierCheckExitCode (newsFragmentPresent : Bool) : Nat :=
  if newsFragmentPresent then 0 else 1

/-- The exit status of the `news` job: the job runs the towncrier check command
as its final step and fails exactly when that command does. -/
def newsJobExitCode (newsFragmentPresent : Bool) : Nat :=
  towncrierCheckExitCode newsFragmentPresent

/-- Claim C1: the `news` job consists of exactly four steps in order: a checkout
fetching the full history (`fetch-depth: 0`), a Python setup pinned to the fixed
interpreter version 3.9, a step whose run block pip-installs towncrier from one
specific commit archive URL, and finally the command
`python -m towncrier check --compare-with origin/main`. -/
theorem news_job_four_steps :
    newsJobSteps.length = 4 ∧
    newsJobSteps[0]? = some checkoutStep ∧
    checkoutStep.uses = some "actions/checkout@v2" ∧
    checkoutStep.fetchDepth = some 0 ∧
    newsJobSteps[1]? = some setupPythonStep ∧
    setupPythonStep.uses = some "actions/setup-python@v2" ∧
    setupPythonStep.pythonVersion = some "3.9" ∧
    newsJobSteps[2]? = some installDependenciesStep ∧
    installDependenciesStep.runLines.contains
      "python -m pip install https://github.com/twisted/towncrier/archive/6b1527b6bf2cbb293ef411ac4f300bd50a5c98ae.zip" = true ∧
    newsJobSteps[3]? = some checkForNewsStep ∧
    checkForNewsStep.runLines = ["python -m towncrier check --compare-with origin/main"] := by
  refine ⟨rfl, rfl, rfl, rfl, rfl, rfl, rfl, rfl, ?_, rfl, rfl⟩
  decide

/-- Claim C2: only pull-request events trigger the news workflow; a pull request
whose changed paths are restricted to `.pre-commit-config.yaml` does not trigger
it, and every other pull request does. -/
theorem news_trigger_pull_request_only :
    (∀ e : GHEvent, newsWorkflowTriggers e = true →
        ∃ ps, e = GHEvent.pullRequest ps) ∧
    (∀ ps : List String, (∀ p ∈ ps, p = ".pre-commit-config.yaml") →
        newsWorkflowTriggers (GHEvent.pullRequest ps) = false) ∧
    (∀ ps : List String, (∃ p ∈ ps, p ≠ ".pre-commit-config.yaml") →
        newsWorkflowTriggers (GHEvent.pullRequest ps) = true) := by
  refine ⟨?_, ?_, ?_⟩
  · intro e he
    cases e with
    | pullRequest ps => exact ⟨ps, rfl⟩
    | push ps => simp [newsWorkflowTriggers] at he
    | workflowDispatch => simp [newsWorkflowTriggers] at he
    | schedule => simp [newsWorkflowTriggers] at he
  · intro ps hps
    have hall : ps.all matchesIgnore = true := by
      rw [List.all_eq_true]
      intro p hp
      simp [matchesIgnore, pathsIgnore, hps p hp]
    simp [newsWorkflowTriggers, hall]
  · rintro ps ⟨p, hp, hne⟩
    simp only [newsWorkflowTriggers, Bool.not_eq_true']
    refine List.all_eq_false.mpr ⟨p, hp, ?_⟩
    simp [matchesIgnore, pathsIgnore, hne]

theorem news_trigger_pull_request_only_witness :
    newsWorkflowTriggers (GHEvent.pullRequest ["README.md"]) = true ∧
    newsWorkflowTriggers (GHEvent.pullRequest [".pre-commit-config.yaml"]) = false := by
  constructor
  · exact news_trigger_pull_request_only.2.2 ["README.md"]
      ⟨"README.md", by simp, by decide⟩
  · exact news_trigger_pull_request_only.2.1 [".pre-commit-config.yaml"]
      (by intro p hp; simpa using hp)

/-- Claim C3: the news job exits with non-zero status exactly when the pull
request, compared against `origin/main`, contains no news fragment; the step
running the comparison is the workflow final step. -/
theorem news_check_fails_iff_no_fragment :
    (∀ b : Bool, newsJobExitCode b ≠ 0 ↔ b = false) ∧
    newsJobSteps.getLast? = some checkForNewsStep ∧
    checkForNewsStep.runLines = ["python -m towncrier check --compare-with origin/main"] := by
  refine ⟨?_, rfl, rfl⟩
  intro b
  cases b <;> simp [newsJobExitCode, towncrierCheckExitCode]

/-! ## The mean-function tutorial (`mean_function`)

The tutorial defines

    def mean_function(params, X):
        mod = jnp.exp(
            -0.5 * jnp.square((X - params["loc"]) / jnp.exp(params["log_width"]))
        )
        beta = jnp.array([1, mod])
        return params["amps"] @ beta

We embed the `jax.numpy` values involved as tensors of rank at most one over an
arbitrary field `R`, with the exponential of the ambient numeric semantics
passed in as a function `rexp : R → R`. -/

/-- A `jax.numpy` value of rank at most one: a scalar or a one-dimensional
array. -/
inductive Tensor (R : Type) where
  | scalar (x : R)
  | vector (xs : List R)
deriving DecidableEq

/-- Elementwise application of a unary operation, as `jax.numpy` applies
`jnp.exp`, `jnp.square`, and arithmetic against a scalar operand: the shape of
the input is preserved. -/
def Tensor.emap {R : Type} (f : R → R) : Tensor R → Tensor R
  | Tensor.scalar x => Tensor.scalar (f x)
  | Tensor.vector xs => Tensor.vector (xs.map f)

/-- The scalar content of a tensor, when it is a scalar. -/
def Tensor.asScalar {R : Type} : Tensor R → Option R
  | Tensor.scalar x => some x
  | Tensor.vector _ => none

/-- `jnp.array` applied to a list of entries: when every entry is a scalar it
assembles the one-dimensional array of them; a mix of scalar and vector entries
cannot be assembled and raises.  (A list of equal-length vectors would assemble
into a rank-two array, which this rank-at-most-one model does not represent;
`mean_function` never builds one, since its first entry is the scalar literal
`1`.) -/
def jnpArray {R : Type} (entries : List (Tensor R)) : Except String (Tensor R) :=
  match entries.mapM Tensor.asScalar with
  | some xs => Except.ok (Tensor.vector xs)
  | none => Except.error "could not assemble an array from mixed scalar and vector entries"

/-- The dot product of two lists, folding from the left as the contraction of a
matmul does. -/
def dotList {R : Type} [Field R] (xs ys : List R) : R :=
  (xs.zip ys).foldl (fun acc p => acc + p.1 * p.2) 0

/-- The `@` operator with a one-dimensional array on the left: contracting with
a same-length one-dimensional array yields a scalar; a scalar right operand or a
length mismatch raises. -/
def jnpMatmulVec {R : Type} [Field R] (xs : List R) : Tensor R → Except String (Tensor R)
  | Tensor.scalar _ => Except.error "matmul does not accept a scalar operand"
  | Tensor.vector ys =>
      if xs.length = ys.length then Except.ok (Tensor.scalar (dotList xs ys))
      else Except.error "matmul dimension mismatch"

/-- The parameter dictionary of the mean-function tutorial, in the shape the
tutorial uses it: a one-dimensional `amps` array and scalar `loc` and
`log_width` entries. -/
structure MeanParams (R : Type) where
  amps : List R
  loc : R
  log_width : R
deriving DecidableEq

/-- The tutorial `mean_function`, step for step: subtract `loc`, divide by
`exp(log_width)`, square, scale by `-0.5`, exponentiate, assemble
`beta = jnp.array([1, mod])`, and contract with `amps`. -/
def mean_function {R : Type} [Field R] (rexp : R → R) (params : MeanParams R)
    (X : Tensor R) : Except String (Tensor R) :=
  let w := rexp params.log_width
  let z := X.emap (fun x => (x - params.loc) / w)
  let sq := z.emap (fun u => u ^ 2)
  let mod := (sq.emap (fun s => -(1 / 2 : R) * s)).emap rexp
  match jnpArray [Tensor.scalar 1, mod] with
  | Except.error e => Except.error e
  | Except.ok beta => jnpMatmulVec params.amps beta

/-- Claim C4: with scalar `loc` and `log_width` and a length-2 `amps` array,
`mean_function` succeeds on every single scalar input coordinate, but raises a
shape error on every batched vector of more than one coordinate, because
`jnp.array([1, mod])` cannot assemble a scalar and a vector. -/
theorem mean_function_per_point_only {R : Type} [Field R] (rexp : R → R)
    (params : MeanParams R) (h2 : params.amps.length = 2) :
    (∀ x : R, ∃ y, mean_function rexp params (Tensor.scalar x) = Except.ok y) ∧
    (∀ xs : List R, 1 < xs.length →
      ∃ msg, mean_function rexp params (Tensor.vector xs) = Except.error msg) := by
  constructor
  · intro x
    refine ⟨Tensor.scalar (dotList params.amps
      [1, rexp (-(1 / 2 : R) * (((x - params.loc) / rexp params.log_width) ^ 2))]), ?_⟩
    simp only [mean_function, Tensor.emap, jnpArray, List.mapM_cons, List.mapM_nil,
      Tensor.asScalar, Option.pure_def, Option.bind_eq_bind, Option.bind_some,
      Option.some_bind, jnpMatmulVec]
    rw [if_pos]
    simp [h2]
  · intro xs _
    exact ⟨"could not assemble an array from mixed scalar and vector entries", rfl⟩

theorem mean_function_per_point_only_witness :
    (∃ y, mean_function (fun q => q) (MeanParams.mk [1/10, 3/10] 5 0) (Tensor.scalar (3 : ℚ)) =
      Except.ok y) ∧
    (∃ msg, mean_function (fun q => q) (MeanParams.mk [1/10, 3/10] 5 0)
      (Tensor.vector [(0 : ℚ), 1]) = Except.error msg) := by
  constructor
  · exact (mean_function_per_point_only (fun q => q)
      (MeanParams.mk [1/10, 3/10] 5 0) rfl).1 3
  · exact (mean_function_per_point_only (fun q => q)
      (MeanParams.mk [1/10, 3/10] 5 0) rfl).2 [0, 1] (by decide)

/-- Claim C7: on a scalar input `x` with `amps = [b, a]`, `mean_function`
returns exactly `b + a * exp(-(x - loc)^2 / (2 * exp(log_width)^2))`, the dot
product of `amps` with `[1, exp(-0.5*((x - loc)/exp(log_width))^2)]`. -/
theorem mean_function_closed_form {R : Type} [Field R] (rexp : R → R)
    (b a loc w x : R) :
    mean_function rexp (MeanParams.mk [b, a] loc w) (Tensor.scalar x) =
      Except.ok (Tensor.scalar (b + a * rexp (-((x - loc) ^ 2 / (2 * rexp w ^ 2))))) := by
  have harg : -(1 / 2 : R) * (((x - loc) / rexp w) ^ 2) =
      -((x - loc) ^ 2 / (2 * rexp w ^ 2)) := by
    field_simp
  simp only [mean_function, Tensor.emap, jnpArray, List.mapM_cons, List.mapM_nil,
    Tensor.asScalar, Option.pure_def, Option.bind_eq_bind, Option.bind_some,
    Option.some_bind, jnpMatmulVec, List.length_cons, List.length_nil]
  rw [if_pos (by trivial)]
  rw [harg]
  simp [dotList]

/-! ## Class definitions in the notebooks

The custom-quasiseparable tutorial defines the kernel classes `Multiband` and
`Latent`, both subclassing `tinygp.kernels.quasisep.Wrapper`; the kernel-transforms
tutorial defines the `flax` modules `Transformer` and `GPLoss`.  We record each
class definition as its name, base class, dataclass fields, and the list of
methods it defines, in source order. -/

/-- A Python class definition: name, base class, dataclass fields, and defined
methods, each in source order. -/
structure PyClassDef where
  name : String
  base : String
  dataFields : List String
  methods : List String
deriving DecidableEq

/-- `class Multiband(tinygp.kernels.quasisep.Wrapper)` from the
custom-quasiseparable tutorial. -/
def MultibandClass : PyClassDef :=
  { name := "Multiband"
    base := "tinygp.kernels.quasisep.Wrapper"
    dataFields := ["amplitudes"]
    methods := ["coord_to_sortable", "observation_model"] }

/-- `class Latent(tinygp.kernels.quasisep.Wrapper)` from the
custom-quasiseparable tutorial. -/
def LatentClass : PyClassDef :=
  { name := "Latent"
    base := "tinygp.kernels.quasisep.Wrapper"
    dataFields := ["coeff_prim", "coeff_deriv"]
    methods := ["coord_to_sortable", "observation_model"] }

/-- `class Transformer(nn.Module)` from the kernel-transforms tutorial. -/
def TransformerClass : PyClassDef :=
  { name := "Transformer"
    base := "flax.linen.Module"
    dataFields := []
    methods := ["__call__"] }

/-- `class GPLoss(nn.Module)` from the kernel-transforms tutorial. -/
def GPLossClass : PyClassDef :=
  { name := "GPLoss"
    base := "flax.linen.Module"
    dataFields := []
    methods := ["__call__"] }

/-- Every class defined anywhere in the repository source, in source order. -/
def repoClassDefs : List PyClassDef :=
  [MultibandClass, LatentClass, TransformerClass, GPLossClass]

/-- The external library base classes that make a class a kernel class. -/
def kernelBaseClasses : List String :=
  ["tinygp.kernels.quasisep.Wrapper", "tinygp.kernels.quasisep.Quasisep",
   "tinygp.kernels.Kernel"]

/-- A class defined in this repository is a kernel class when it subclasses one
of the external library kernel types. -/
def isKernelClass (c : PyClassDef) : Bool := kernelBaseClasses.contains c.base

/-- Claim C6: the kernel classes defined in this repository are exactly
`Multiband` and `Latent`; each subclasses the quasiseparable `Wrapper` type and
overrides exactly the two methods `coord_to_sortable` and `observation_model`. -/
theorem kernel_classes_wrap_and_override_two :
    repoClassDefs.filter isKernelClass = [MultibandClass, LatentClass] ∧
    ∀ c ∈ repoClassDefs, isKernelClass c = true →
      c.base = "tinygp.kernels.quasisep.Wrapper" ∧
      c.methods = ["coord_to_sortable", "observation_model"] := by
  exact ⟨by decide, by decide⟩

theorem kernel_classes_wrap_and_override_two_witness :
    MultibandClass.base = "tinygp.kernels.quasisep.Wrapper" ∧
    MultibandClass.methods = ["coord_to_sortable", "observation_model"] :=
  kernel_classes_wrap_and_override_two.2 MultibandClass (by decide) (by decide)

/-! ## The `Multiband` and `Latent` wrappers, semantically

The wrapped quasiseparable kernel is external; what it provides to the
overrides is its `observation_model` (a vector-valued function of the sortable
coordinate) and its `design_matrix`.  Structured inputs `X` are pairs of a time
coordinate and an integer label, exactly as the tutorial builds them. -/

/-- The interface of a wrapped external quasiseparable kernel, as used by the
two overrides: its observation model and its design matrix. -/
structure QuasisepKernel (R : Type) where
  observation_model : R → List R
  design_matrix : List (List R)

/-- `jax.numpy` indexing of a one-dimensional array: out-of-range indices are
clamped to the last element. -/
def jnpIndex {R : Type} [Field R] (xs : List R) (i : Nat) : R :=
  xs.getD (min i (xs.length - 1)) 0

/-- The `Multiband` kernel wrapper: a wrapped kernel plus a per-band amplitude
array. -/
structure Multiband (R : Type) where
  kernel : QuasisepKernel R
  amplitudes : List R

/-- `Multiband.coord_to_sortable`: `return X[0]`. -/
def Multiband.coord_to_sortable {R : Type} (k : Multiband R) (X : R × Nat) : R :=
  X.1

/-- `Multiband.observation_model`:
`return self.amplitudes[X[1]] * self.kernel.observation_model(X[0])`. -/
def Multiband.observation_model {R : Type} [Field R] (k : Multiband R)
    (X : R × Nat) : List R :=
  (k.kernel.observation_model X.1).map (fun v => jnpIndex k.amplitudes X.2 * v)

/-- Row-vector-times-matrix product, contracting the rows of the matrix against
the entries of the vector. -/
def vecMatMul {R : Type} [Field R] (v : List R) (m : List (List R)) : List R :=
  match m.head? with
  | none => []
  | some r0 =>
      (v.zip m).foldl (fun acc p => List.zipWith (· + ·) acc (p.2.map (fun x => p.1 * x)))
        (r0.map (fun _ => 0))

/-- The `Latent` kernel wrapper: a wrapped kernel plus per-class coefficient
arrays for the primary process and its derivative. -/
structure Latent (R : Type) where
  kernel : QuasisepKernel R
  coeff_prim : List R
  coeff_deriv : List R

/-- `Latent.coord_to_sortable`: `return X[0]`. -/
def Latent.coord_to_sortable {R : Type} (k : Latent R) (X : R × Nat) : R :=
  X.1

/-- `Latent.observation_model`: unpack `t, label = X`, take the wrapped kernel
design matrix and observation model, scale by the per-class coefficients, and
return `obs_prim - obs_deriv` where the derivative part is contracted with the
design matrix. -/
def Latent.observation_model {R : Type} [Field R] (k : Latent R)
    (X : R × Nat) : List R :=
  let design := k.kernel.design_matrix
  let obs := k.kernel.observation_model X.1
  let obs_prim := obs.map (fun v => jnpIndex k.coeff_prim X.2 * v)
  let obs_deriv := vecMatMul (obs.map (fun v => jnpIndex k.coeff_deriv X.2 * v)) design
  List.zipWith (· - ·) obs_prim obs_deriv

/-- Claim C8: for a valid band index, `Multiband.observation_model` is the
wrapped observation model scaled by the band amplitude; scaling every amplitude
by `c` scales the observation model by `c`; and `coord_to_sortable` returns the
time coordinate unchanged, independent of band index and amplitudes. -/
theorem multiband_observation_model_scaling {R : Type} [Field R]
    (k : QuasisepKernel R) (amps : List R) (c t : R) (bIdx : Nat)
    (hb : bIdx < amps.length) :
    (Multiband.mk k amps).observation_model (t, bIdx) =
      (k.observation_model t).map (fun v => amps.get ⟨bIdx, hb⟩ * v) ∧
    (Multiband.mk k (amps.map (fun a => c * a))).observation_model (t, bIdx) =
      ((Multiband.mk k amps).observation_model (t, bIdx)).map (fun v => c * v) ∧
    (Multiband.mk k amps).coord_to_sortable (t, bIdx) = t ∧
    (Multiband.mk k (amps.map (fun a => c * a))).coord_to_sortable (t, bIdx) = t := by
  have hmin : min bIdx (amps.length - 1) = bIdx := by omega
  have hidx : jnpIndex amps bIdx = amps.get ⟨bIdx, hb⟩ := by
    simp [jnpIndex, hmin, List.getD_eq_getElem?_getD, List.getElem?_eq_getElem hb]
  have hidx2 : jnpIndex (amps.map (fun a => c * a)) bIdx = c * amps.get ⟨bIdx, hb⟩ := by
    simp [jnpIndex, List.length_map, hmin, List.getD_eq_getElem?_getD,
      List.getElem?_map, List.getElem?_eq_getElem hb]
  refine ⟨?_, ?_, rfl, rfl⟩
  · simp [Multiband.observation_model, hidx]
  · simp only [Multiband.observation_model, hidx, hidx2, List.map_map]
    refine List.map_congr_left ?_
    intro v _
    simp [Function.comp]
    ring

theorem multiband_observation_model_scaling_witness :
    (Multiband.mk (QuasisepKernel.mk (fun t => [t, 1]) [[0, 1], [1, 0]]) [2, 3]).observation_model
        ((5 : ℚ), 1) =
      ((fun t => [t, (1 : ℚ)]) 5).map (fun v => (3 : ℚ) * v) ∧
    (Multiband.mk (QuasisepKernel.mk (fun t => [t, 1]) [[0, 1], [1, 0]]) [2, 3]).coord_to_sortable
        ((5 : ℚ), 1) = 5 := by
  have h := multiband_observation_model_scaling
    (QuasisepKernel.mk (fun t => [t, (1 : ℚ)]) [[0, 1], [1, 0]]) [2, 3] 7 5 1 (by decide)
  exact ⟨h.1, h.2.2.1⟩

/-! ## The banded observation model (`off_diags`)

The custom-quasiseparable tutorial builds the off-diagonal band of the noise
matrix with

    bandwidth = max(Counter(calib_id).values()) - 1
    off_diags = np.zeros((nt, bandwidth))
    for j in range(bandwidth):
        m = calib_id[: nt - j - 1] == calib_id[j + 1 :]
        off_diags[: nt - j - 1, j][m] = caliberr[calib_id[: nt - j - 1][m]] ** 2

We embed the matrix as a function of the row and column index, the loop as a
left fold over `range bandwidth`, and each iteration as the masked assignment
into column `j`. -/

/-- `max(Counter(calib_id).values()) - 1`: the largest multiplicity of any
calibration identifier, minus one.  (Folding the per-element counts gives the
same maximum as folding the per-key counts, since the count of every key occurs
among the per-element counts.) -/
def bandwidthOf (calib : List Nat) : Nat :=
  ((calib.map (fun c => calib.count c)).foldl max 0) - 1

/-- One iteration of the loop: the masked assignment into column `j`.  Row `i`
of column `j` is overwritten with `caliberr[calib_id[i]] ** 2` when `i` lies in
the sliced range and `calib_id[i] == calib_id[i + j + 1]`; every other entry
keeps its previous value. -/
def offDiagsStep {R : Type} [Field R] (caliberr : List R) (calib : List Nat)
    (nt : Nat) (mat : Nat → Nat → R) (j : Nat) : Nat → Nat → R :=
  fun i jc =>
    if jc = j ∧ i < nt - j - 1 ∧ calib.getD i 0 = calib.getD (i + j + 1) 0 then
      caliberr.getD (calib.getD i 0) 0 ^ 2
    else mat i jc

/-- The loop `for j in range(n)` starting from the all-zero matrix
`np.zeros((nt, bandwidth))`. -/
def offDiagsLoop {R : Type} [Field R] (caliberr : List R) (calib : List Nat)
    (nt n : Nat) : Nat → Nat → R :=
  (List.range n).foldl (offDiagsStep caliberr calib nt) (fun _ _ => 0)

/-- The `off_diags` band matrix of the tutorial, with `nt` the number of data
points (the length of `calib_id` in the notebook). -/
def off_diags {R : Type} [Field R] (caliberr : List R) (calib : List Nat)
    (nt : Nat) : Nat → Nat → R :=
  offDiagsLoop caliberr calib nt (bandwidthOf calib)

/-- Columns at or beyond the loop bound are never written by the fold. -/
theorem offDiagsFold_untouched {R : Type} [Field R] (caliberr : List R)
    (calib : List Nat) (nt : Nat) (mat : Nat → Nat → R) (n i jc : Nat)
    (h : n ≤ jc) :
    (List.range n).foldl (offDiagsStep caliberr calib nt) mat i jc = mat i jc := by
  induction n with
  | zero => rfl
  | succ n ih =>
      rw [List.range_succ, List.foldl_append, List.foldl_cons, List.foldl_nil]
      have hne : jc ≠ n := by omega
      rw [offDiagsStep, if_neg (by simp [hne])]
      exact ih (by omega)

/-- The entry of the folded matrix in a column the loop does write: the value
set by iteration `jc`, over the zero it started from. -/
theorem offDiagsLoop_apply {R : Type} [Field R] (caliberr : List R)
    (calib : List Nat) (nt n i jc : Nat) (hj : jc < n) :
    offDiagsLoop caliberr calib nt n i jc =
      if i < nt - jc - 1 ∧ calib.getD i 0 = calib.getD (i + jc + 1) 0 then
        caliberr.getD (calib.getD i 0) 0 ^ 2
      else 0 := by
  induction n with
  | zero => omega
  | succ n ih =>
      rw [offDiagsLoop, List.range_succ, List.foldl_append, List.foldl_cons,
        List.foldl_nil]
      by_cases hjn : jc = n
      · subst hjn
        by_cases hcond : i < nt - jc - 1 ∧ calib.getD i 0 = calib.getD (i + jc + 1) 0
        · rw [offDiagsStep, if_pos ⟨rfl, hcond⟩, if_pos hcond]
        · rw [offDiagsStep, if_neg (fun h => hcond h.2), if_neg hcond]
          exact offDiagsFold_untouched caliberr calib nt _ jc i jc le_rfl
      · have hlt : jc < n := by omega
        rw [offDiagsStep, if_neg (by simp [hjn])]
        exact ih hlt

/-- Claim C9: inside the band, `off_diags[i, j]` is `caliberr[calib_id[i]] ** 2`
exactly when rows `i` and `i + j + 1` exist and share a calibration identifier,
and `0` otherwise: the noise matrix couples two observations only when they
share a calibration block. -/
theorem off_diags_couples_only_shared_blocks {R : Type} [Field R]
    (caliberr : List R) (calib : List Nat) (nt i j : Nat)
    (hj : j < bandwidthOf calib) :
    off_diags caliberr calib nt i j =
      if i + j + 1 < nt ∧ calib.getD i 0 = calib.getD (i + j + 1) 0 then
        caliberr.getD (calib.getD i 0) 0 ^ 2
      else 0 := by
  rw [off_diags, offDiagsLoop_apply caliberr calib nt (bandwidthOf calib) i j hj]
  have hiff : (i < nt - j - 1 ∧ calib.getD i 0 = calib.getD (i + j + 1) 0) ↔
      (i + j + 1 < nt ∧ calib.getD i 0 = calib.getD (i + j + 1) 0) := by
    constructor <;> rintro ⟨h1, h2⟩ <;> exact ⟨by omega, h2⟩
  rw [if_congr hiff rfl rfl]

theorem off_diags_couples_only_shared_blocks_witness :
    off_diags (R := ℚ) [2, 3] [0, 0, 1] 3 0 0 = 4 ∧
    off_diags (R := ℚ) [2, 3] [0, 0, 1] 3 1 0 = 0 := by
  constructor
  · rw [off_diags_couples_only_shared_blocks [2, 3] [0, 0, 1] 3 0 0 (by decide),
      if_pos (by exact ⟨by omega, rfl⟩)]
    norm_num [List.getD]
  · rw [off_diags_couples_only_shared_blocks [2, 3] [0, 0, 1] 3 1 0 (by decide),
      if_neg (by decide)]

/-! ## Statement-level syntax of the notebook code cells

For the claims about which error-handling and concurrency constructs appear in
the source, we transcribe every code cell of every notebook at statement
granularity.  Bodies are a mutually inductive block type (instead of a nested
`List`) so that recursion over the tree stays structural and kernel-reducible. -/

mutual

/-- One Python statement, at the granularity the syntactic claims need: a
module import (recording the imported module), an assignment (recording its
target as written), a bare expression statement, a `return`, an IPython `%pip` magic, a
function or class definition with its body, a `for` loop with its body, or a
`try` statement with its body and its single `except` clause (every `try` in
this repository has exactly one handler, whose exception class we record). -/
inductive PyStmt where
  | importS (module : String)
  | assign (target : String)
  | exprS
  | ret
  | magicPip
  | defF (fname : String) (body : PyBlock)
  | classD (cname : String) (body : PyBlock)
  | forS (body : PyBlock)
  | tryS (body : PyBlock) (excClass : String) (handler : PyBlock)

/-- A block of Python statements. -/
inductive PyBlock where
  | nil
  | cons (s : PyStmt) (rest : PyBlock)

end

/-- Builds a block from a list of statements. -/
def blockOf : List PyStmt → PyBlock
  | [] => PyBlock.nil
  | s :: rest => PyBlock.cons s (blockOf rest)

/-- All exception classes of `except` clauses occurring anywhere in a block,
recursing into definition, loop, try and handler bodies. -/
def PyBlock.handlersOf : PyBlock → List String
  | PyBlock.nil => []
  | PyBlock.cons (PyStmt.defF _ body) rest => body.handlersOf ++ rest.handlersOf
  | PyBlock.cons (PyStmt.classD _ body) rest => body.handlersOf ++ rest.handlersOf
  | PyBlock.cons (PyStmt.forS body) rest => body.handlersOf ++ rest.handlersOf
  | PyBlock.cons (PyStmt.tryS body exc handler) rest =>
      body.handlersOf ++ exc :: (handler.handlersOf ++ rest.handlersOf)
  | PyBlock.cons _ rest => rest.handlersOf

/-- All modules imported anywhere in a block, recursing into definition, loop,
try and handler bodies. -/
def PyBlock.importsOf : PyBlock → List String
  | PyBlock.nil => []
  | PyBlock.cons (PyStmt.importS m) rest => m :: rest.importsOf
  | PyBlock.cons (PyStmt.defF _ body) rest => body.importsOf ++ rest.importsOf
  | PyBlock.cons (PyStmt.classD _ body) rest => body.importsOf ++ rest.importsOf
  | PyBlock.cons (PyStmt.forS body) rest => body.importsOf ++ rest.importsOf
  | PyBlock.cons (PyStmt.tryS body _ handler) rest =>
      body.importsOf ++ handler.importsOf ++ rest.importsOf
  | PyBlock.cons _ rest => rest.importsOf

/-- The exception classes handled anywhere in a notebook cell. -/
def cellHandlers (cell : List PyStmt) : List String := (blockOf cell).handlersOf

/-- The modules imported anywhere in a notebook cell. -/
def cellImports (cell : List PyStmt) : List String := (blockOf cell).importsOf

/-- The exception classes handled anywhere in a notebook. -/
def notebookHandlers (cells : List (List PyStmt)) : List String :=
  cells.flatMap cellHandlers

/-- The modules imported anywhere in a notebook. -/
def notebookImports (cells : List (List PyStmt)) : List String :=
  cells.flatMap cellImports

open PyStmt

/-- The code cells of the mean-function tutorial, in order: the install-guard
cell; imports, `mean_function`, `mean_params`, the first plot; the
raises-exception cell `mean_function(mean_params, X_grid)`; the explicit vmap
cell; simulated data; `build_gp` and `loss`; the jaxopt solve; two conditioning
and plotting cells; the alternative workflow; a trailing empty cell. -/
def meansCells : List (List PyStmt) :=
  [ [ tryS (blockOf [importS "tinygp"]) "ImportError" (blockOf [magicPip])
    , tryS (blockOf [importS "jaxopt"]) "ImportError" (blockOf [magicPip]) ]
  , [ importS "functools", importS "numpy", importS "matplotlib.pyplot"
    , importS "jax", importS "jax.numpy", exprS
    , defF "mean_function" (blockOf [assign "mod", assign "beta", ret])
    , assign "mean_params", assign "X_grid", assign "model"
    , exprS, exprS, exprS, assign "_" ]
  , [ assign "model" ]
  , [ assign "model" ]
  , [ assign "random", assign "X", assign "y", assign "y", assign "y"
    , exprS, exprS, exprS, assign "_" ]
  , [ importS "tinygp"
    , defF "build_gp" (blockOf [assign "kernel", ret])
    , defF "loss" (blockOf [assign "gp", ret])
    , assign "params", exprS ]
  , [ importS "jaxopt", assign "solver", assign "soln", exprS ]
  , [ assign "gp", assign "_, cond", assign "mu", assign "std"
    , exprS, exprS, exprS, exprS, exprS, exprS, assign "_" ]
  , [ assign "gp", assign "_, cond", assign "mu", assign "std"
    , exprS, exprS, exprS, exprS, exprS, exprS, exprS, assign "_" ]
  , [ assign "vmapped_mean_function"
    , defF "build_gp_v2" (blockOf [assign "kernel", ret])
    , defF "loss_v2" (blockOf [assign "gp", ret])
    , exprS ]
  , [] ]

/-- The code cells of the introduction tutorial, in order. -/
def introCells : List (List PyStmt) :=
  [ [ tryS (blockOf [importS "tinygp"]) "ImportError" (blockOf [magicPip]) ]
  , [ importS "jax", exprS ]
  , [ importS "tinygp", assign "kernel" ]
  , [ importS "numpy", importS "matplotlib.pyplot"
    , defF "plot_kernel" (blockOf [assign "dx", exprS, exprS, exprS])
    , exprS ]
  , [ exprS, assign "kernel_scaled", exprS, assign "kernel_sum", exprS
    , assign "kernel_prod", exprS, assign "_" ]
  , [ importS "tinygp", assign "X", assign "gp" ]
  , [ assign "y", exprS, exprS, exprS, assign "_" ]
  , [ assign "kernel_prod", assign "gp", assign "y", exprS, exprS, exprS, assign "_" ]
  , [ assign "gp", assign "y_const"
    , defF "mean_function" (blockOf [ret])
    , assign "gp", assign "y_func", assign "_, axes"
    , assign "ax", exprS, exprS, exprS
    , assign "ax", exprS, exprS, exprS, exprS, assign "_" ]
  , [ assign "random", assign "X", assign "y", assign "kernel", assign "gp", exprS ]
  , [ assign "cond", exprS ]
  , [ exprS ]
  , [ assign "X_test", assign "_, cond_gp", assign "mu", assign "std"
    , exprS, exprS, exprS, assign "y_samp", exprS, exprS, exprS
    , exprS, exprS, exprS, assign "_" ]
  , [ importS "jax.numpy"
    , defF "build_gp" (blockOf [assign "kernel", ret])
    , defF "loss" (blockOf [assign "gp", ret])
    , assign "params", exprS ]
  , [] ]

/-- The code cells of the non-Gaussian-likelihoods tutorial, in order. -/
def likelihoodsCells : List (List PyStmt) :=
  [ [ tryS (blockOf [importS "tinygp"]) "ImportError" (blockOf [magicPip])
    , tryS (blockOf [importS "numpyro"]) "ImportError" (blockOf [magicPip, magicPip])
    , tryS (blockOf [importS "arviz"]) "ImportError" (blockOf [magicPip]) ]
  , [ importS "numpy", importS "matplotlib.pyplot"
    , assign "random", assign "x", assign "true_log_rate", assign "y"
    , exprS, exprS, exprS, exprS, assign "_" ]
  , [ importS "jax", importS "jax.numpy", importS "numpyro"
    , importS "numpyro.distributions", importS "tinygp", exprS
    , defF "model" (blockOf [assign "mean", assign "sigma", assign "rho"
        , assign "kernel", assign "gp", assign "log_rate", exprS])
    , assign "nuts_kernel", assign "mcmc", assign "rng_key", exprS
    , assign "samples" ]
  , [ assign "q", exprS, exprS, exprS, exprS, exprS, exprS, exprS, assign "_" ]
  , [ defF "model" (blockOf [assign "mean", assign "sigma", assign "rho"
        , assign "kernel", assign "gp", assign "log_rate", exprS])
    , defF "guide" (blockOf [assign "mu", assign "sigma", exprS])
    , assign "optim", assign "svi", assign "results" ]
  , [ assign "mu", assign "sigma"
    , exprS, exprS, exprS, exprS, exprS, exprS, exprS, assign "_" ]
  , [] ]

/-- The code cells of the kernel-transforms tutorial, in order; the second cell
holds the `Transformer` and `GPLoss` classes and the sequential training loop. -/
def transformsCells : List (List PyStmt) :=
  [ [ tryS (blockOf [importS "tinygp"]) "ImportError" (blockOf [magicPip])
    , tryS (blockOf [importS "flax"]) "ImportError" (blockOf [magicPip])
    , tryS (blockOf [importS "optax"]) "ImportError" (blockOf [magicPip]) ]
  , [ importS "numpy", importS "matplotlib.pyplot"
    , assign "random", assign "noise", assign "x", assign "y", assign "t"
    , exprS, exprS, exprS, exprS, exprS, exprS, assign "_" ]
  , [ importS "jax", importS "optax", importS "jax.numpy", importS "flax.linen"
    , importS "flax.linen.initializers", importS "tinygp"
    , classD "Transformer" (blockOf
        [ defF "__call__" (blockOf [assign "x", assign "x", assign "x"
            , assign "x", assign "x", ret]) ])
    , classD "GPLoss" (blockOf
        [ defF "__call__" (blockOf [assign "log_sigma", assign "log_rho"
            , assign "log_jitter", assign "base_kernel", assign "transform"
            , assign "kernel", assign "gp", assign "log_prob, gp_cond", ret]) ])
    , defF "loss" (blockOf [ret])
    , assign "model", assign "params", assign "tx", assign "opt_state"
    , assign "loss_grad_fn"
    , forS (blockOf [assign "loss_val, grads", assign "updates, opt_state"
        , assign "params"])
    , exprS, assign "mu, var"
    , exprS, exprS, exprS, exprS, exprS, exprS, exprS, exprS, assign "_" ]
  , [] ]

/-- The code cells of the custom-quasiseparable tutorial, in order; the second
cell holds the `Multiband` class, the seventh the `Latent` class, and the
fifteenth the `off_diags` band-matrix construction. -/
def quasisepCells : List (List PyStmt) :=
  [ [ tryS (blockOf [importS "tinygp"]) "ImportError" (blockOf [magicPip])
    , tryS (blockOf [importS "jaxopt"]) "ImportError" (blockOf [magicPip]) ]
  , [ importS "jax", importS "jax.numpy", importS "tinygp", exprS
    , classD "Multiband" (blockOf
        [ assign "amplitudes"
        , defF "coord_to_sortable" (blockOf [ret])
        , defF "observation_model" (blockOf [ret]) ]) ]
  , [ defF "plot_multiband_sample" (blockOf
        [ assign "gp", assign "y", forS (blockOf [exprS, exprS])
        , exprS, exprS, exprS, exprS, exprS, exprS ]) ]
  , [ importS "numpy", importS "matplotlib.pyplot"
    , assign "random", assign "t", assign "band_id", assign "X"
    , assign "kernel", exprS ]
  , [ assign "kernel", assign "kernel", exprS ]
  , [ assign "R", assign "L", assign "base_kernel", assign "kernel", exprS ]
  , [ classD "Latent" (blockOf
        [ assign "coeff_prim", assign "coeff_deriv"
        , defF "coord_to_sortable" (blockOf [ret])
        , defF "observation_model" (blockOf [assign "t, label", assign "design"
            , assign "obs", assign "obs_prim", assign "obs_deriv", ret]) ])
    , assign "base_kernel", assign "kernel", assign "random", assign "t"
    , assign "label", assign "X", assign "gp", assign "y", assign "subset"
    , assign "X_obs", assign "y_obs", assign "offset"
    , exprS, exprS, exprS, exprS, exprS, exprS, exprS, exprS, exprS
    , assign "_" ]
  , [ defF "plot_latent_samples" (blockOf
        [ assign "yp", exprS, exprS, exprS, exprS, exprS, exprS, exprS
        , exprS, exprS, assign "_" ]) ]
  , [ exprS, exprS, exprS, assign "_" ]
  , [ exprS, exprS, exprS, assign "_" ]
  , [ importS "jaxopt"
    , defF "build_gp" (blockOf [assign "base_kernel", assign "kernel", ret])
    , defF "loss" (blockOf [assign "gp", ret])
    , assign "init", exprS, assign "solver", assign "soln", exprS ]
  , [ assign "gp", assign "gp_cond", assign "mu, var"
    , exprS, exprS, exprS, exprS
    , forS (blockOf [assign "delta", assign "m", exprS])
    , exprS, exprS, exprS, exprS, exprS, assign "_" ]
  , [ assign "random", assign "nt", assign "tmax", assign "t", assign "amp"
    , assign "P0", assign "dP", assign "P", assign "y", assign "tsmooth"
    , assign "Psmooth", assign "ysignal", assign "dysignal", assign "yerr_meas"
    , assign "y", assign "calib_id", assign "caliberr", assign "yerr_calib"
    , assign "y" ]
  , [ assign "yerr", exprS, exprS, exprS, exprS, assign "_" ]
  , [ importS "collections", assign "bandwidth", assign "off_diags"
    , forS (blockOf [assign "m", assign "off_diags"])
    , assign "noise_model", exprS, exprS, exprS, assign "_" ]
  , [ importS "jaxopt"
    , defF "build_gp" (blockOf [assign "kernel", ret])
    , defF "loss" (blockOf [assign "gp", ret])
    , assign "init", exprS, assign "solver", assign "soln", exprS
    , assign "gp", assign "gp_cond", assign "mu, var", assign "std"
    , exprS, exprS, exprS, exprS, exprS, exprS, assign "_" ]
  , [] ]

/-- All five notebooks of the repository. -/
def repoNotebooks : List (List (List PyStmt)) :=
  [meansCells, introCells, likelihoodsCells, transformsCells, quasisepCells]

/-- A block consisting only of `%pip` install magics. -/
def PyBlock.onlyPipMagics : PyBlock → Bool
  | PyBlock.nil => true
  | PyBlock.cons PyStmt.magicPip rest => rest.onlyPipMagics
  | PyBlock.cons _ _ => false

/-- A block consisting of a single import statement. -/
def isSingleImport : PyBlock → Bool
  | PyBlock.cons (PyStmt.importS _) PyBlock.nil => true
  | _ => false

/-- Every `try` statement in the block, at any nesting depth, is an install
guard: it wraps a single package import, handles only `ImportError`, and its
handler does nothing but run `%pip` installs. -/
def PyBlock.trysAreImportGuards : PyBlock → Bool
  | PyBlock.nil => true
  | PyBlock.cons (PyStmt.tryS body exc handler) rest =>
      isSingleImport body && (exc == "ImportError") && handler.onlyPipMagics
        && rest.trysAreImportGuards
  | PyBlock.cons (PyStmt.defF _ b) rest =>
      b.trysAreImportGuards && rest.trysAreImportGuards
  | PyBlock.cons (PyStmt.classD _ b) rest =>
      b.trysAreImportGuards && rest.trysAreImportGuards
  | PyBlock.cons (PyStmt.forS b) rest =>
      b.trysAreImportGuards && rest.trysAreImportGuards
  | PyBlock.cons _ rest => rest.trysAreImportGuards

/-- Error handling in a notebook is confined to install guards: every handler
anywhere is an `ImportError` handler, every `try` is an install guard, and no
cell after the opening one contains any handler. -/
def handlersConfinedToImportGuards (cells : List (List PyStmt)) : Bool :=
  (notebookHandlers cells).all (fun h => h == "ImportError") &&
  cells.all (fun c => (blockOf c).trysAreImportGuards) &&
  (cells.drop 1).all (fun c => (cellHandlers c).isEmpty)

/-- Claim C5 counterexample: the repository source does contain error-handling
constructs: the opening cell of the mean-function tutorial alone defines two
`except ImportError` handlers, so the statement that no notebook cell defines
an exception handler is false. -/
theorem notebooks_define_exception_handlers :
    notebookHandlers meansCells = ["ImportError", "ImportError"] ∧
    (cellHandlers (meansCells.headD [])).isEmpty = false := ⟨rfl, rfl⟩

/-- Claim C5 as amended: error handling in the repository is confined to the
opening install-guard cells: every exception handler in every notebook handles
`ImportError`, every `try` wraps a single package import with a handler that
only runs `%pip` installs, no handler occurs outside a notebook opening cell,
and no workflow step sets `continue-on-error`. -/
theorem error_handling_confined_to_import_guards :
    repoNotebooks.all handlersConfinedToImportGuards = true ∧
    newsJobSteps.all (fun s => ! s.continueOnError) = true := by
  exact ⟨by decide, by decide⟩

/-- Standard-library modules that create threads, processes or other
concurrent execution. -/
def concurrencyModules : List String :=
  ["threading", "_thread", "multiprocessing", "concurrent", "concurrent.futures",
   "asyncio", "subprocess", "os"]

/-- The external numerical and plotting packages (plus `functools` and
`collections` from the standard library) that the notebooks delegate all
computation to. -/
def externalNumericalModules : List String :=
  ["functools", "collections", "numpy", "matplotlib.pyplot", "jax", "jax.numpy",
   "tinygp", "jaxopt", "numpyro", "numpyro.distributions", "flax",
   "flax.linen", "flax.linen.initializers", "optax", "arviz"]

/-- Every module imported anywhere in any notebook of the repository. -/
def allRepoImports : List String := repoNotebooks.flatMap notebookImports

/-- Claim C10: no code in the repository creates threads, processes or any
other concurrent execution: every module imported anywhere in the source is one
of the external numerical or plotting packages, and none is a concurrency
module; all parallelism is delegated to those packages. -/
theorem no_concurrency_in_source :
    allRepoImports.all (fun m =>
      externalNumericalModules.contains m && ! concurrencyModules.contains m) = true := by
  decide
